import Mathlib

/-!
Shallow embedding of the remote-process runner (`teuthology/orchestra/run.py`)
and the structured-report scanner (`teuthology/util/xml_scanner.py`) of the
`teuthology-local` repository, together with theorems settling the frozen
claims about the natural-language specification.

Conventions of the embedding:
* Paramiko/gevent collaborators (channel, transport, SSH client) are modelled
  as explicit first-order state records; remote command outputs (`cat`, `ls`)
  are modelled as lookup tables inside the client.  The channel carries a call
  counter for `recv_exit_status`, mirroring the spec's "observable via a
  collaborator call counter".
* Byte strings returned by remote reads are modelled as `String` (the
  bytes/str distinction of Python is not modelled).
* Python exceptions are modelled with `Except`; the error taxonomy of
  `teuthology.exceptions` is the inductive `RunError`.
-/

namespace Teuthology

/-! ## Python string primitives used by the sources -/

/-- Index of the first occurrence of `pat` inside a character list, if any
(the search performed by Python's `str.find`). -/
def subIndex (pat : List Char) : List Char → Option Nat
  | [] => if pat = [] then some 0 else none
  | c :: rest =>
      if List.isPrefixOf pat (c :: rest) then some 0
      else (subIndex pat rest).map (· + 1)

/-- Python `s.find(pat)`: first occurrence index, `-1` when absent. -/
def pyFind (s pat : String) : Int :=
  match subIndex pat.toList s.toList with
  | some i => (i : Int)
  | none => -1

/-- Python slice `s[:k]` for an integer `k`: a negative `k` counts from the
end (clamped at 0), a nonnegative `k` is clamped at the length. -/
def pySliceTo (s : String) (k : Int) : String :=
  let cs := s.toList
  let idx : Nat := if k < 0 then cs.length - (-k).toNat else min k.toNat cs.length
  (cs.take idx).asString

/-- The truncation `reason[:reason.find('begin captured')]` applied to failure
messages both in `run.py::parse_xml` and in `UnitTestScanner.get_error`. -/
def truncate_reason (reason : String) : String :=
  pySliceTo reason (pyFind reason "begin captured")

/-- Last index of a character in a list, if any. -/
def lastIdxOf (c : Char) (l : List Char) : Option Nat :=
  match l.reverse.findIdx? (· = c) with
  | some k => some (l.length - 1 - k)
  | none => none

/-- Extension part of `os.path.splitext(p)`: the suffix from the last dot of
the basename, unless every character before that dot in the basename is
itself a dot (so `".xml"` has extension `""`). -/
def splitextExt (p : String) : String :=
  let base := ((p.toList.reverse.takeWhile (· ≠ '/')).reverse)
  match lastIdxOf '.' base with
  | none => ""
  | some i => if (base.take i).any (· ≠ '.') then (base.drop i).asString else ""

/-- Python truthiness of an optional string (`None` and `""` are falsy). -/
def optTruthy : Option String → Bool
  | none => false
  | some s => s ≠ ""

/-- Splitting a character list on a separator character (the groups between
separators, Python `str.split(sep)` semantics: `""` splits to `[""]`,
separators at the ends produce empty groups). -/
def splitOnChar (sep : Char) : List Char → List (List Char)
  | [] => [[]]
  | c :: cs =>
      let r := splitOnChar sep cs
      if c = sep then [] :: r
      else
        match r with
        | [] => [[c]]
        | g :: gs => (c :: g) :: gs

/-- Python `s.split('\n')`, the only split the sources perform. -/
def pySplitNl (s : String) : List String :=
  (splitOnChar '\n' s.toList).map List.asString

/-- Python `s.endswith(suffix)` / the `xml_path[-1] == "/"` check. -/
def pyEndsWith (s suf : String) : Bool :=
  List.isPrefixOf suf.toList.reverse s.toList.reverse

/-- Python `s.upper()` (ASCII letters, as produced by the XML tags). -/
def pyUpper (s : String) : String :=
  (s.toList.map Char.toUpper).asString

/-- Python `s.replace(old, new)` for the single-character pattern the source
uses (`"\n" → " "`). -/
def pyReplaceChar (old new : Char) (s : String) : String :=
  (s.toList.map (fun c => if c = old then new else c)).asString

/-- Digit-list accumulator for `pyIntParse`. -/
def digitsToNat (acc : Nat) : List Char → Option Nat
  | [] => some acc
  | c :: cs =>
      if c.isDigit then digitsToNat (acc * 10 + (c.toNat - '0'.toNat)) cs
      else none

/-- Python `int(s)` on an attribute value: an optional sign followed by one
or more decimal digits (the whitespace/underscore liberality of Python's
`int` is immaterial for the counter attributes modelled here). -/
def pyIntParse (s : String) : Option Int :=
  match s.toList with
  | [] => none
  | '-' :: cs =>
      match cs with
      | [] => none
      | _ => (digitsToNat 0 cs).map (fun n => -(n : Int))
  | '+' :: cs =>
      match cs with
      | [] => none
      | _ => (digitsToNat 0 cs).map (fun n => (n : Int))
  | cs => (digitsToNat 0 cs).map (fun n => (n : Int))

/-- Whether an `Except` value is a success. -/
def exceptOk {ε α : Type} : Except ε α → Bool
  | .ok _ => true
  | .error _ => false

instance {ε α : Type} [DecidableEq ε] [DecidableEq α] : DecidableEq (Except ε α) :=
  fun a b =>
    match a, b with
    | .ok x, .ok y =>
        if h : x = y then .isTrue (congrArg Except.ok h)
        else .isFalse (fun hh => h (Except.ok.inj hh))
    | .error x, .error y =>
        if h : x = y then .isTrue (congrArg Except.error h)
        else .isFalse (fun hh => h (Except.error.inj hh))
    | .ok _, .error _ => .isFalse (fun hh => Except.noConfusion hh)
    | .error _, .ok _ => .isFalse (fun hh => Except.noConfusion hh)

/-! ## XML documents (lxml `etree` model) -/

/-- An XML element: tag, attributes in document order, children in document
order. -/
inductive XElem where
  | mk (tag : String) (attrs : List (String × String)) (children : List XElem)

mutual

def xelemBEq : XElem → XElem → Bool
  | .mk t a cs, .mk u b ds => t = u && a = b && xelemListBEq cs ds

def xelemListBEq : List XElem → List XElem → Bool
  | [], [] => true
  | c :: cs, d :: ds => xelemBEq c d && xelemListBEq cs ds
  | _, _ => false

end

mutual

theorem xelemBEq_iff : ∀ a b : XElem, xelemBEq a b = true ↔ a = b
  | .mk t a cs, .mk u b ds => by
      simp [xelemBEq, xelemListBEq_iff cs ds, Bool.and_eq_true, decide_eq_true_eq,
        and_assoc]

theorem xelemListBEq_iff : ∀ cs ds : List XElem, xelemListBEq cs ds = true ↔ cs = ds
  | [], [] => by simp [xelemListBEq]
  | [], _ :: _ => by simp [xelemListBEq]
  | _ :: _, [] => by simp [xelemListBEq]
  | c :: cs, d :: ds => by
      simp [xelemListBEq, xelemBEq_iff c d, xelemListBEq_iff cs ds, Bool.and_eq_true]

end

instance : DecidableEq XElem := fun a b => decidable_of_iff _ (xelemBEq_iff a b)

def XElem.tag : XElem → String
  | .mk t _ _ => t

def XElem.attrs : XElem → List (String × String)
  | .mk _ a _ => a

def XElem.children : XElem → List XElem
  | .mk _ _ c => c

/-- `elem.get(key)`: first attribute with that name, if any. -/
def xGetOpt (e : XElem) (k : String) : Option String :=
  (e.attrs.find? (fun p => p.1 = k)).map (·.2)

/-- `elem.get(key, default)`. -/
def xGet (e : XElem) (k : String) (d : String) : String :=
  (xGetOpt e k).getD d

mutual

/-- All elements of the tree in document (preorder) order. -/
def xPreorder : XElem → List XElem
  | .mk t a cs => .mk t a cs :: xPreorderAll cs

def xPreorderAll : List XElem → List XElem
  | [] => []
  | c :: cs => xPreorder c ++ xPreorderAll cs

end

/-- Whether an element has a direct `failure` or `error` child. -/
def hasFaultChild (e : XElem) : Bool :=
  e.children.any (fun c => c.tag = "failure" ∨ c.tag = "error")

/-- The xpath `.//failure/.. | .//error/..`: every element of the tree that
has a `failure` or `error` child, in document order, without duplicates. -/
def failedTestcases (root : XElem) : List XElem :=
  (xPreorder root).filter hasFaultChild

/-- Python `int(root.get(key, -1))`: the attribute parsed as an integer when
present (a malformed value raises `ValueError`), `-1` when absent. -/
def getAttrInt (e : XElem) (k : String) : Except String Int :=
  match xGetOpt e k with
  | some s =>
      match pyIntParse s with
      | some n => .ok n
      | none => .error ("invalid literal for int(): " ++ s)
  | none => .ok (-1)

/-! ## Collaborator model: transport, channel, SSH client -/

/-- State of a paramiko transport, as seen through `is_active()`. -/
structure Transport where
  is_active : Bool
deriving DecidableEq, Repr

/-- Outcome of `cat`-ting a remote path: the file is absent (empty `cat`
output makes `etree.parse` raise), its content is malformed XML (ditto), or
it parses into a document. -/
inductive CatResult where
  | missing
  | malformed
  | doc (x : XElem)
deriving DecidableEq

/-- The SSH client collaborator: the transport, lookup tables giving the
outputs of the remote `cat`/`ls` commands the scanners run, and an
instrumentation log of the paths that were `cat`-ted. -/
structure SSHClient where
  transport : Option Transport
  catMap : List (String × CatResult)
  lsMap : List (String × String)
  catLog : List String
deriving DecidableEq

/-- Pure lookup of a remote file's `cat` outcome. -/
def catLookup (catMap : List (String × CatResult)) (path : String) : CatResult :=
  ((catMap.find? (fun p => p.1 = path)).map (·.2)).getD .missing

/-- `client.exec_command('cat ' + path)`: returns the parse outcome of the
remote file and records the path in the instrumentation log. -/
def execCat (cl : SSHClient) (path : String) : CatResult × SSHClient :=
  (catLookup cl.catMap path, { cl with catLog := cl.catLog ++ [path] })

/-- Pure lookup of a remote `ls` command's stdout text (empty when the
command is not in the table). -/
def lsLookup (lsMap : List (String × String)) (cmd : String) : String :=
  ((lsMap.find? (fun p => p.1 = cmd)).map (·.2)).getD ""

/-- `client.exec_command(cmd)` for an `ls -d ...` command. -/
def execLs (cl : SSHClient) (cmd : String) : String × SSHClient :=
  (lsLookup cl.lsMap cmd, cl)

/-- The exec channel of the command: the raw exit status the remote side will
report, whether it is already available, and an instrumentation counter of
`recv_exit_status` calls. -/
structure Channel where
  rawStatus : Int
  statusReady : Bool
  recvCount : Nat
deriving DecidableEq, Repr

/-- `channel.recv_exit_status()`: yields the raw status and bumps the
collaborator call counter. -/
def recv_exit_status (ch : Channel) : Int × Channel :=
  (ch.rawStatus, { ch with recvCount := ch.recvCount + 1 })

/-! ## `teuthology/util/xml_scanner.py` -/

/-- One structured failure record `{kind, testcase, message}`. -/
structure FailRec where
  kind : String
  testcase : String
  message : String
deriving DecidableEq, Repr

/-- The structured map returned by `UnitTestScanner.get_error`: suite name →
ordered records, plus the number of failed testcases. -/
structure ErrData where
  failed_testsuites : List (String × List FailRec)
  num_of_failures : Nat
deriving DecidableEq, Repr

/-- `error_data[suite] += [rec]` on a `defaultdict(list)` that preserves key
insertion order. -/
def addRec (m : List (String × List FailRec)) (k : String) (r : FailRec) :
    List (String × List FailRec) :=
  match m with
  | [] => [(k, [r])]
  | (k', rs) :: rest =>
      if k' = k then (k', rs ++ [r]) :: rest else (k', rs) :: addRec rest k r

/-- Inner loop body of `UnitTestScanner.get_error`: for one `failure`/`error`
child of a testcase, append the structured record and set the summary text if
it is still empty. -/
def faultChildStep (tcName suiteName : String)
    (acc : String × List (String × List FailRec)) (child : XElem) :
    String × List (String × List FailRec) :=
  if child.tag = "failure" ∨ child.tag = "error" then
    let reason := xGet child "message" "No message found in xml output, check logs."
    let shortReason := truncate_reason reason
    let m := addRec acc.2 suiteName
      { kind := child.tag, testcase := tcName, message := reason }
    let txt :=
      if acc.1 = "" then
        pyUpper child.tag ++ ": Test `" ++ tcName ++ "` of `" ++ suiteName ++
          "`. Reason: " ++ shortReason ++ "."
      else acc.1
    (txt, m)
  else acc

/-- Main branch of `UnitTestScanner.get_error` once the fast-path counters
did not fire: walk every failed testcase and its fault children. -/
def get_error_main (root : XElem) :
    Except String (Option String × Option ErrData) :=
  let ftc := failedTestcases root
  if ftc.length = 0 then .ok (none, none)
  else
    let res := ftc.foldl
      (fun acc tc =>
        tc.children.foldl
          (faultChildStep (xGet tc "name" "test-name") (xGet tc "classname" "suite-name"))
          acc)
      ("", [])
    .ok (some res.1,
      some { failed_testsuites := res.2, num_of_failures := ftc.length })

/-- `UnitTestScanner.get_error(xml_tree)`.  The `and` between the two counter
checks short-circuits exactly as in Python, so the `errors` attribute is only
parsed when `failures` parsed to `0`. -/
def get_error (root : XElem) : Except String (Option String × Option ErrData) :=
  match getAttrInt root "failures" with
  | .error e => .error e
  | .ok zf =>
      if zf = 0 then
        match getAttrInt root "errors" with
        | .error e => .error e
        | .ok ze => if ze = 0 then .ok (none, none) else get_error_main root
      else get_error_main root

/-- State of an `XMLScanner`/`UnitTestScanner`: the accumulated structured
records (each tagged with the `xml_file` it came from) and the client. -/
structure Scanner where
  yaml_data : List (String × ErrData)
  client : SSHClient
deriving DecidableEq

/-- `XMLScanner.write_logs` persists `yaml_data` to a remote YAML file via
SFTP, best-effort (all exceptions are logged and swallowed); it does not
change the modelled state. -/
def write_logs (sc : Scanner) : Scanner := sc

/-- `XMLScanner.scan_file(path)`: an empty path yields `None` without any
remote command; otherwise `cat` the path (the stdout object is always
truthy), parse it (raising on missing/malformed content), run `get_error`,
and append the structured record (tagged with the path) when present. -/
def scan_file (sc : Scanner) (path : String) :
    Except String (Option String) × Scanner :=
  if path = "" then (.ok none, sc)
  else
    let (res, cl') := execCat sc.client path
    let sc1 : Scanner := { sc with client := cl' }
    match res with
    | .doc x =>
        match get_error x with
        | .error e => (.error e, sc1)
        | .ok (etxt, edata) =>
            match edata with
            | some d =>
                (.ok etxt, { sc1 with yaml_data := sc1.yaml_data ++ [(path, d)] })
            | none => (.ok etxt, sc1)
    | _ => (.error "XMLSyntaxError", sc1)

/-- Pure per-file summary of `scan_file` over a `cat` table: the message it
would return and the record (tagged with the path) it would accumulate, or
the exception it would raise. -/
def fileScan (catMap : List (String × CatResult)) (path : String) :
    Except String (Option String × Option (String × ErrData)) :=
  if path = "" then .ok (none, none)
  else
    match catLookup catMap path with
    | .doc x =>
        match get_error x with
        | .error e => .error e
        | .ok (etxt, edata) => .ok (etxt, edata.map (fun d => (path, d)))
    | _ => .error "XMLSyntaxError"

/-- The error text `scan_file` contributes to the collected list (only
truthy messages are kept). -/
def fsMsg : Except String (Option String × Option (String × ErrData)) → Option String
  | .ok (etxt, _) => if optTruthy etxt then etxt else none
  | .error _ => none

/-- The structured record `scan_file` appends to `yaml_data`, if any. -/
def fsRec : Except String (Option String × Option (String × ErrData)) →
    Option (String × ErrData)
  | .ok (_, recd) => recd
  | .error _ => none

/-- Loop of `scan_all_files_in_dir`: scan each file, collecting every truthy
error text; a scan exception propagates out of the loop. -/
def scanFilesLoop (sc : Scanner) (files : List String) (errors : List String) :
    Except String (List String) × Scanner :=
  match files with
  | [] => (.ok errors, write_logs sc)
  | f :: rest =>
      match scan_file sc f with
      | (.error e, sc') => (.error e, sc')
      | (.ok etxt, sc') =>
          scanFilesLoop sc' rest
            (if optTruthy etxt then errors ++ [etxt.getD ""] else errors)

/-- `XMLScanner.scan_all_files_in_dir(dir_path, ext)`. -/
def scan_all_files_in_dir (sc : Scanner) (dir_path ext : String) :
    Except String (List String) × Scanner :=
  let (listing, cl') := execLs sc.client ("ls -d " ++ dir_path ++ "*." ++ ext)
  scanFilesLoop { sc with client := cl' } (pySplitNl listing) []

/-- `UnitTestScanner.get_error_msg(xml_path)`: directory paths are scanned
file by file and the first collected message returned; single files are
scanned directly; every exception is caught, logged and turned into `None`
(an empty path raises `IndexError` at `xml_path[-1]`, also caught). -/
def get_error_msg (sc : Scanner) (xml_path : String) :
    Option String × Scanner :=
  if xml_path = "" then (none, sc)
  else if pyEndsWith xml_path "/" then
    match scan_all_files_in_dir sc xml_path "xml" with
    | (.error _, sc') => (none, sc')
    | (.ok errors, sc') =>
        match errors with
        | e :: _ => (some e, sc')
        | [] => (none, sc')
  else
    match scan_file sc xml_path with
    | (.error _, sc') => (none, sc')
    | (.ok e, sc') => (e, write_logs sc')

/-! ## `teuthology/orchestra/run.py` -/

/-- The error taxonomy of `teuthology.exceptions` as surfaced by `run.py`,
plus Python's `RuntimeError` used for the deadlock guard. -/
inductive RunError where
  | connectionLost (command : String) (node : String)
  | commandCrashed (command : String)
  | commandFailed (command : String) (exitstatus : Int) (node : String)
      (label : Option String)
  | unitTestError (exitstatus : Int) (node : String) (label : Option String)
      (message : String)
  | runtimeError (msg : String)
deriving DecidableEq, Repr

/-- Descriptor of a spawned greenlet (stream pump). -/
inductive PumpDesc where
  | stdinPump (src : Option String)
  | outPump (streamName : String) (quiet : Bool)
deriving DecidableEq, Repr

/-- The `stdin` attribute of a `RemoteProcess`: the raw channel file set by
`execute()`, the `KludgeFile`-wrapped channel file, or `None`. -/
inductive StdinField where
  | noneF
  | chanRaw
  | kludgeWrapped
deriving DecidableEq, Repr

/-- A caller-supplied destination for stdout/stderr: `None` (pump to the
default logger) or a stream/logger object identified by a tag. -/
inductive OutArg where
  | pynoneO
  | streamO (tagId : String)
deriving DecidableEq, Repr

/-- The `stdout`/`stderr` attribute of a `RemoteProcess`: the raw channel
file set by `execute()`, or whatever object `setup_output_stream` stored. -/
inductive OutField where
  | chanFile
  | replacedBy (o : OutArg)
deriving DecidableEq, Repr

/-- Argument accepted by `setup_stdin`: the `PIPE` sentinel, `None`, or a
source whose contents are modelled as a string (`str`, `bytes`, or a
file-like object). -/
inductive StreamArg where
  | pipeS
  | pynoneS
  | strSrc (s : String)
  | bytesSrc (s : String)
  | fileSrc (s : String)
deriving DecidableEq, Repr

/-- Argument accepted by `setup_output_stream`: the `PIPE` sentinel or a
caller destination. -/
inductive OutStreamArg where
  | pipeO
  | argO (o : OutArg)
deriving DecidableEq, Repr

/-- The source contents `copy_and_close` will copy for a stdin argument
(`None` copies nothing). -/
def stdinSrc : StreamArg → Option String
  | .pipeS => none
  | .pynoneS => none
  | .strSrc s => some s
  | .bytesSrc s => some s
  | .fileSrc s => some s

/-- `RemoteProcess.__slots__`, restricted to the state the claims are about.
`wait_flag` is the `_wait` attribute. -/
structure RemoteProcess where
  command : String
  check_status : Bool
  hostname : String
  label : Option String
  wait_flag : Bool
  returncode : Option Int
  exitstatus : Option Int
  unittest_xml : String
  greenlets : List PumpDesc
  stdin : StdinField
  stdout : OutField
  stderr : OutField
deriving DecidableEq, Repr

/-- `RemoteProcess.deadlock_warning % name`. -/
def deadlock_warning (name : String) : String :=
  "Using PIPE for " ++ name ++ " without wait=False would deadlock"

/-- `RemoteProcess.setup_stdin(stream_obj)`: wraps `self.stdin` in a
`KludgeFile`; a non-`PIPE` argument spawns a `copy_and_close` greenlet and
nulls `self.stdin`; `PIPE` under `_wait` raises `RuntimeError`. -/
def setup_stdin (p : RemoteProcess) (stream_obj : StreamArg) :
    Except RunError RemoteProcess :=
  let p1 := { p with stdin := StdinField.kludgeWrapped }
  match stream_obj with
  | .pipeS =>
      if p1.wait_flag then .error (.runtimeError (deadlock_warning "stdin"))
      else .ok p1
  | s =>
      .ok { p1 with
        greenlets := p1.greenlets ++ [PumpDesc.stdinPump (stdinSrc s)],
        stdin := StdinField.noneF }

/-- Name of an output stream attribute. -/
inductive OutName where
  | stdout
  | stderr
deriving DecidableEq, Repr

def OutName.str : OutName → String
  | .stdout => "stdout"
  | .stderr => "stderr"

/-- `RemoteProcess.setup_output_stream(stream_obj, stream_name, quiet)`: a
non-`PIPE` argument spawns a logging `copy_file_to` greenlet and stores the
argument in the stream attribute; `PIPE` under `_wait` raises
`RuntimeError`. -/
def setup_output_stream (p : RemoteProcess) (stream_obj : OutStreamArg)
    (stream_name : OutName) (quiet : Bool) : Except RunError RemoteProcess :=
  match stream_obj with
  | .argO o =>
      let p1 := { p with greenlets := p.greenlets ++ [PumpDesc.outPump stream_name.str quiet] }
      .ok (match stream_name with
        | .stdout => { p1 with stdout := OutField.replacedBy o }
        | .stderr => { p1 with stderr := OutField.replacedBy o })
  | .pipeO =>
      if p.wait_flag then .error (.runtimeError (deadlock_warning stream_name.str))
      else .ok p

/-- Channel-side view of the remote command's stdin. -/
structure StdinChanState where
  written : String
  closed : Bool
  shutdown_write : Bool
deriving DecidableEq, Repr

/-- `KludgeFile.close()`: closes the wrapped channel file and additionally
shuts down the write direction of the channel so the remote command sees
EOF. -/
def kludgeClose (st : StdinChanState) : StdinChanState :=
  { st with closed := true, shutdown_write := true }

/-- `copy_and_close(src, fdst)` where `fdst` is the `KludgeFile`-wrapped
remote stdin: `None` copies nothing, `bytes`/`str` sources are wrapped into
in-memory streams and copied, then the destination is closed. -/
def copy_and_close (src : Option String) (fdst : StdinChanState) : StdinChanState :=
  kludgeClose (match src with
    | none => fdst
    | some s => { fdst with written := fdst.written ++ s })

/-- `RemoteProcess._get_exitstatus()`: reads the raw status from the channel,
stores it into both `exitstatus` and `returncode`, and yields `None` instead
of the `-1` sentinel. -/
def get_exitstatus (p : RemoteProcess) (ch : Channel) :
    Option Int × RemoteProcess × Channel :=
  let (status, ch') := recv_exit_status ch
  let p' := { p with exitstatus := some status, returncode := some status }
  ((if status = -1 then none else some status), p', ch')

/-- Summary `parse_xml` renders for a parsed document: `None` when no
testcase failed, else the one-line message about the first failed testcase
(the Python loop over the children `break`s at the first `failure`/`error`
child, and a found message overrides the `did not pass` base text). -/
def parse_xml_doc_msg (x : XElem) : Option String :=
  match failedTestcases x with
  | [] => none
  | tc1 :: _ =>
      let casename := xGet tc1 "name" "test-name"
      let suitename := xGet tc1 "classname" "suite-name"
      let baseMsg := "Test `" ++ casename ++ "` of `" ++ suitename ++ "` did not pass."
      let msg :=
        match tc1.children.find? (fun c => c.tag = "failure" ∨ c.tag = "error") with
        | some child =>
            let reason := xGet child "message" "NO MESSAGE FOUND IN XML FILE; CHECK LOGS."
            pyUpper child.tag ++ ": Test `" ++ casename ++ "` of `" ++
              suitename ++ "` because " ++ truncate_reason reason
        | none => baseMsg
      some (pyReplaceChar '\n' ' ' ("Some testcases did not pass. " ++ msg))

/-- `run.py::parse_xml(xmlfile, client)`: `cat` the file, parse it (any
exception is re-raised wrapped in a generic `Exception`), and render the
summary of the first failed testcase. -/
def parse_xml (xmlfile : String) (cl : SSHClient) :
    Except String (Option String) × SSHClient :=
  if xmlfile = "" then (.ok none, cl)
  else
    let (res, cl') := execCat cl xmlfile
    match res with
    | .doc x => (.ok (parse_xml_doc_msg x), cl')
    | _ =>
        (.error "Somthing went wrong while searching for error in XML file: XMLSyntaxError",
         cl')

/-- Loop of the directory branch of `find_unittest_error`: parse each listed
file, returning the first truthy message; exceptions propagate. -/
def findLoop : List String → SSHClient → Except String (Option String) × SSHClient
  | [], cl => (.ok none, cl)
  | f :: rest, cl =>
      match parse_xml f cl with
      | (.error e, cl') => (.error e, cl')
      | (.ok e, cl') => if optTruthy e then (.ok e, cl') else findLoop rest cl'

/-- `run.py::find_unittest_error(xmlfile_path, client)`: an empty path yields
a (truthy) message; a path ending in `/` lists `*.xml` files remotely and
scans them in order, short-circuiting at the first truthy message; a `.xml`
path is parsed directly; anything else yields `None`. -/
def find_unittest_error (xmlfile_path : String) (cl : SSHClient) :
    Except String (Option String) × SSHClient :=
  if xmlfile_path = "" then (.ok (some "No XML file path was passed to process!"), cl)
  else if pyEndsWith xmlfile_path "/" then
    let (listing, cl') := execLs cl ("ls -d " ++ xmlfile_path ++ "*.xml")
    findLoop (pySplitNl listing) cl'
  else if splitextExt xmlfile_path = ".xml" then
    parse_xml xmlfile_path cl
  else (.ok none, cl)

/-- `RemoteProcess._raise_for_status()`: resolve the exit status if still
unset, then apply the failure policy when `check_status` is set.  The
returned quadruple carries the (possibly raised) outcome and the updated
process, client and channel states. -/
def raise_for_status (p : RemoteProcess) (cl : SSHClient) (ch : Channel) :
    Except RunError Unit × RemoteProcess × SSHClient × Channel :=
  let st : RemoteProcess × Channel :=
    match p.returncode with
    | none => let r := get_exitstatus p ch; (r.2.1, r.2.2)
    | some _ => (p, ch)
  let p1 := st.1
  let ch1 := st.2
  if p1.check_status then
    match p1.returncode with
    | none =>
        -- command died to a signal or the connection was lost
        (match cl.transport with
         | none => (.error (.connectionLost p1.command p1.hostname), p1, cl, ch1)
         | some t =>
             if t.is_active then (.error (.commandCrashed p1.command), p1, cl, ch1)
             else (.error (.connectionLost p1.command p1.hostname), p1, cl, ch1))
    | some r =>
        if r = -1 then
          (match cl.transport with
           | none => (.error (.connectionLost p1.command p1.hostname), p1, cl, ch1)
           | some t =>
               if t.is_active then (.error (.commandCrashed p1.command), p1, cl, ch1)
               else (.error (.connectionLost p1.command p1.hostname), p1, cl, ch1))
        else if r ≠ 0 then
          if p1.unittest_xml ≠ "" then
            match find_unittest_error p1.unittest_xml cl with
            | (.error _, cl') =>
                -- `Unable to scan logs` is logged and swallowed
                (.error (.commandFailed p1.command r p1.hostname p1.label), p1, cl', ch1)
            | (.ok em, cl') =>
                match em with
                | some m =>
                    if m ≠ "" then
                      (.error (.unitTestError r p1.hostname p1.label m), p1, cl', ch1)
                    else
                      (.error (.commandFailed p1.command r p1.hostname p1.label), p1, cl', ch1)
                | none =>
                    (.error (.commandFailed p1.command r p1.hostname p1.label), p1, cl', ch1)
          else (.error (.commandFailed p1.command r p1.hostname p1.label), p1, cl, ch1)
        else (.ok (), p1, cl, ch1)
  else (.ok (), p1, cl, ch1)

/-- `RemoteProcess.wait()`: resolve the exit status, join every greenlet with
a bounded 60s timeout (pump-internal failures such as decode errors are
caught inside the pumps, and a join timeout only logs and kills, so the join
phase raises nothing observable), rewind seekable streams, then apply the
failure policy and return the resolved status. -/
def rp_wait (p : RemoteProcess) (cl : SSHClient) (ch : Channel) :
    Except RunError (Option Int) × RemoteProcess × SSHClient × Channel :=
  let r0 := get_exitstatus p ch
  let status := r0.1
  match raise_for_status r0.2.1 cl r0.2.2 with
  | (.error e, p2, cl2, ch2) => (.error e, p2, cl2, ch2)
  | (.ok _, p2, cl2, ch2) => (.ok status, p2, cl2, ch2)

/-- `RemoteProcess.finished` (property): a bounded 0.1s greenlet check (no
modelled effect), then `exit_status_ready()`; when ready the exit status is
resolved (again). -/
def finished (p : RemoteProcess) (ch : Channel) : Bool × RemoteProcess × Channel :=
  if ch.statusReady then
    let r := get_exitstatus p ch
    (true, r.2.1, r.2.2)
  else (false, p, ch)

/-- `RemoteProcess.poll()`: when `finished`, apply the failure policy and
return `self.returncode`; otherwise `None`. -/
def poll (p : RemoteProcess) (cl : SSHClient) (ch : Channel) :
    Except RunError (Option Int) × RemoteProcess × SSHClient × Channel :=
  match finished p ch with
  | (true, p1, ch1) =>
      match raise_for_status p1 cl ch1 with
      | (.error e, p2, cl2, ch2) => (.error e, p2, cl2, ch2)
      | (.ok _, p2, cl2, ch2) => (.ok p2.returncode, p2, cl2, ch2)
  | (false, p1, ch1) => (.ok none, p1, cl, ch1)

/-! ## Batch wait (`run.py::wait`) -/

/-- A remote process handle bundled with its collaborators. -/
structure ProcH where
  rp : RemoteProcess
  client : SSHClient
  chan : Channel
deriving DecidableEq

/-- `proc.finished` on a bundled handle. -/
def ProcH.finishedStep (pr : ProcH) : Bool × ProcH :=
  let r := finished pr.rp pr.chan
  (r.1, { pr with rp := r.2.1, chan := r.2.2 })

/-- `proc.wait()` on a bundled handle. -/
def ProcH.waitStep (pr : ProcH) : Except RunError (Option Int) × ProcH :=
  let r := rp_wait pr.rp pr.client pr.chan
  (r.1, { rp := r.2.1, client := r.2.2.1, chan := r.2.2.2 })

/-- One pass of `for proc in list(not_ready): if proc.finished:
not_ready.remove(proc)` over the snapshot of pending indices; finished
handles are dropped, the order of the rest is preserved. -/
def pollRound : List Nat → List ProcH → List ProcH × List Nat
  | [], ps => (ps, [])
  | i :: rest, ps =>
      match ps.get? i with
      | none =>
          let r := pollRound rest ps
          (r.1, i :: r.2)
      | some pr =>
          let s := pr.finishedStep
          let r := pollRound rest (ps.set i s.2)
          (r.1, if s.1 then r.2 else i :: r.2)

/-- Modelled from the spec: `safe_while` from `teuthology.contextutil` is not
among the sources; per the spec the polling phase runs a bounded retry loop
(`timeout // 6` tries, sleeping between checks) over the pending handles
"until none remain or retries exhaust", with no further effect on
exhaustion. -/
def pollLoop : Nat → List ProcH → List Nat → List ProcH
  | 0, ps, _ => ps
  | _, ps, [] => ps
  | fuel + 1, ps, notReady =>
      let r := pollRound notReady ps
      pollLoop fuel r.1 r.2

/-- Polling phase of `run.py::wait(processes, timeout)`: only entered for a
truthy positive timeout. -/
def pollPart (procs : List ProcH) (timeout : Option Nat) : List ProcH :=
  match timeout with
  | some t => if 0 < t then pollLoop (t / 6) procs (List.range procs.length) else procs
  | none => procs

/-- The final `for proc in processes: proc.wait()` loop: handles are waited
in order; an exception aborts the loop and propagates.  Returns the outcome,
the handles whose `wait()` was invoked (updated), and the untouched rest. -/
def waitAll : List ProcH → Except RunError Unit × List ProcH × List ProcH
  | [] => (.ok (), [], [])
  | pr :: rest =>
      match pr.waitStep with
      | (.error e, pr') => (.error e, [pr'], rest)
      | (.ok _, pr') =>
          let r := waitAll rest
          (r.1, pr' :: r.2.1, r.2.2)

/-- `run.py::wait(processes, timeout)`. -/
def batch_wait (procs : List ProcH) (timeout : Option Nat) :
    Except RunError Unit × List ProcH × List ProcH :=
  waitAll (pollPart procs timeout)

/-- Two clients that agree on the transport and the remote content tables,
differing at most in the instrumentation log of `cat`-ted paths. -/
def clientCfgEq (cl cl' : SSHClient) : Prop :=
  cl.transport = cl'.transport ∧ cl.catMap = cl'.catMap ∧ cl.lsMap = cl'.lsMap

/-! ## Concrete fixtures used by witnesses and counterexamples -/

/-- A baseline handle: command issued, status not yet resolved. -/
def baseProc : RemoteProcess :=
  { command := "true", check_status := true, hostname := "h0", label := none,
    wait_flag := true, returncode := none, exitstatus := none, unittest_xml := "",
    greenlets := [], stdin := StdinField.chanRaw, stdout := OutField.chanFile,
    stderr := OutField.chanFile }

/-- A client with no remote files and a live transport. -/
def baseClient : SSHClient :=
  { transport := some { is_active := true }, catMap := [], lsMap := [], catLog := [] }

/-- A channel whose command exited cleanly. -/
def chanZero : Channel := { rawStatus := 0, statusReady := true, recvCount := 0 }

/-- A channel that reports the `-1` sentinel. -/
def chanLost : Channel := { rawStatus := -1, statusReady := true, recvCount := 0 }

/-- A channel whose command exited with status 1. -/
def chanOne : Channel := { rawStatus := 1, statusReady := true, recvCount := 0 }

/-- A handle whose raw exit code resolved to the `-1` sentinel. -/
def procSentinel : RemoteProcess :=
  { baseProc with returncode := some (-1), exitstatus := some (-1) }

/-- A client whose transport is gone. -/
def clientNoTransport : SSHClient := { baseClient with transport := none }

/-- A handle that exited with status 1, no report path configured. -/
def procFailed : RemoteProcess :=
  { baseProc with returncode := some 1, exitstatus := some 1 }

/-- A handle with `check_status=False`. -/
def procUnchecked : RemoteProcess := { baseProc with check_status := false }

/-- A non-blocking handle (`wait=False`). -/
def procNoWait : RemoteProcess := { baseProc with wait_flag := false }

/-- A report whose `failures` counter attribute is not an integer and which
contains no failed testcase. -/
def docBadCounter : XElem := .mk "testsuite" [("failures", "x")] []

/-- A report with zero counters that nevertheless contains a testcase with a
`failure` child (exercising "regardless of contents"). -/
def docZeroCounters : XElem :=
  .mk "testsuite" [("failures", "0"), ("errors", "0")]
    [.mk "testcase" [("name", "t1"), ("classname", "s1")]
      [.mk "failure" [("message", "boom")] []]]

/-- A bundled handle whose blocking wait raises (`CommandFailedError`). -/
def procFailingWait : ProcH :=
  { rp := { baseProc with command := "false" }, client := baseClient, chan := chanOne }

/-- A bundled handle whose blocking wait succeeds. -/
def procOkWait : ProcH :=
  { rp := baseProc, client := baseClient, chan := chanZero }

/-- A report with one failed testcase `t1` of suite `s1`. -/
def docFailT1 : XElem :=
  .mk "testsuite" [("failures", "1"), ("errors", "0")]
    [.mk "testcase" [("name", "t1"), ("classname", "s1")]
      [.mk "failure" [("message", "boom")] []]]

/-- A report with one failed testcase `t2` of suite `s2`. -/
def docFailT2 : XElem :=
  .mk "testsuite" [("failures", "1"), ("errors", "0")]
    [.mk "testcase" [("name", "t2"), ("classname", "s2")]
      [.mk "failure" [("message", "crash")] []]]

/-- A clean report. -/
def docClean : XElem :=
  .mk "testsuite" [("failures", "0"), ("errors", "0")]
    [.mk "testcase" [("name", "t3"), ("classname", "s3")] []]

/-- A client serving a directory of three reports, the first two failing. -/
def dirClient : SSHClient :=
  { transport := some { is_active := true },
    catMap := [("/reports/a.xml", .doc docFailT1), ("/reports/b.xml", .doc docFailT2),
               ("/reports/c.xml", .doc docClean)],
    lsMap := [("ls -d /reports/*.xml",
               "/reports/a.xml\n/reports/b.xml\n/reports/c.xml")],
    catLog := [] }

/-- A fresh scanner over `dirClient`. -/
def dirScanner : Scanner := { yaml_data := [], client := dirClient }

/-! ## Theorems for the claims -/

theorem subIndex_le_length (pat : List Char) :
    ∀ (l : List Char) (i : Nat), subIndex pat l = some i → i ≤ l.length := by
  intro l
  induction l with
  | nil =>
      intro i h
      simp only [subIndex] at h
      split at h
      · simp_all
      · simp_all
  | cons c rest ih =>
      intro i h
      simp only [subIndex] at h
      split at h
      · simp only [Option.some.injEq] at h
        simp [List.length_cons]
        omega
      · match hr : subIndex pat rest with
        | none => simp [hr] at h
        | some j =>
            simp [hr] at h
            have := ih j hr
            simp [List.length_cons]
            omega

/-- C9: a failure/error message without the `begin captured` marker is
truncated to the message minus its final character (`find` returns `-1` and
the slice stops one before the end); a message containing the marker is cut
exactly at the marker's first occurrence. -/
theorem truncation_drops_final_char_c9 (reason : String) :
    (pyFind reason "begin captured" = -1 →
      truncate_reason reason = reason.toList.dropLast.asString) ∧
    (∀ i : Nat, subIndex "begin captured".toList reason.toList = some i →
      truncate_reason reason = (reason.toList.take i).asString) := by
  constructor
  · intro h
    unfold truncate_reason pySliceTo
    rw [h]
    norm_num
    rw [List.dropLast_eq_take]
    rfl
  · intro i h
    have hle := subIndex_le_length _ _ _ h
    unfold truncate_reason pySliceTo pyFind
    rw [h]
    simp only
    have hnlt : ¬ ((i : Int) < 0) := by exact_mod_cast Int.not_lt.mpr (Int.ofNat_nonneg i)
    rw [if_neg hnlt]
    simp [Int.toNat_ofNat, Nat.min_eq_left hle]

/-- Witness for C9 at concrete messages. -/
theorem truncation_drops_final_char_c9_witness :
    truncate_reason "boom" = "boo" ∧ truncate_reason "xy begin captured z" = "xy " := by
  constructor
  · have h := (truncation_drops_final_char_c9 "boom").1 (by decide)
    rw [h]; decide
  · have h := (truncation_drops_final_char_c9 "xy begin captured z").2 3 (by decide)
    rw [h]; decide

/-- C1: with `check_status` set and a resolved raw code equal to the `-1`
sentinel (or a still-unset returncode over a channel reporting the
sentinel), status resolution raises `ConnectionLostError` carrying the
command text and hostname when the transport is absent or inactive, and
`CommandCrashedError` carrying the command text when the transport is
present and active. -/
theorem sentinel_raises_lost_or_crashed_c1
    (p : RemoteProcess) (cl : SSHClient) (ch : Channel)
    (hcs : p.check_status = true)
    (hraw : p.returncode = some (-1) ∨ (p.returncode = none ∧ ch.rawStatus = -1)) :
    (raise_for_status p cl ch).1 =
      .error (match cl.transport with
        | none => RunError.connectionLost p.command p.hostname
        | some t =>
            if t.is_active then RunError.commandCrashed p.command
            else RunError.connectionLost p.command p.hostname) := by
  rcases hraw with h | ⟨h1, h2⟩
  · simp only [raise_for_status, h, hcs]
    cases htr : cl.transport with
    | none => simp
    | some t => cases hta : t.is_active <;> simp [hta]
  · simp only [raise_for_status, h1, h2, hcs, get_exitstatus, recv_exit_status]
    cases htr : cl.transport with
    | none => simp
    | some t => cases hta : t.is_active <;> simp [hta]

/-- Witness for C1: sentinel code with the transport gone raises
`ConnectionLostError` with the command and host. -/
theorem sentinel_raises_lost_or_crashed_c1_witness :
    (raise_for_status procSentinel clientNoTransport chanLost).1 =
      .error (RunError.connectionLost "true" "h0") := by
  have h := sentinel_raises_lost_or_crashed_c1 procSentinel clientNoTransport chanLost
    rfl (Or.inl rfl)
  simpa using h

/-- C2: with `check_status` set and a positive resolved exit code, the
handle raises `CommandFailedError` (command, code, host, label) when no
report path is configured; when one is configured and the scanner yields a
non-empty message it raises `UnitTestError` (code, host, label, message)
instead; and when the scanner raises, the exception is swallowed and plain
`CommandFailedError` is raised. -/
theorem positive_exit_error_selection_c2
    (p : RemoteProcess) (cl : SSHClient) (ch : Channel) (r : Int)
    (hcs : p.check_status = true) (hrc : p.returncode = some r) (hr : 0 < r) :
    (p.unittest_xml = "" →
      (raise_for_status p cl ch).1 =
        .error (RunError.commandFailed p.command r p.hostname p.label)) ∧
    (∀ m cl', p.unittest_xml ≠ "" → m ≠ "" →
      find_unittest_error p.unittest_xml cl = (.ok (some m), cl') →
      (raise_for_status p cl ch).1 =
        .error (RunError.unitTestError r p.hostname p.label m)) ∧
    (∀ e cl', p.unittest_xml ≠ "" →
      find_unittest_error p.unittest_xml cl = (.error e, cl') →
      (raise_for_status p cl ch).1 =
        .error (RunError.commandFailed p.command r p.hostname p.label)) := by
  have hne1 : r ≠ -1 := by omega
  have hne0 : ¬ (r = 0) := by omega
  refine ⟨?_, ?_, ?_⟩
  · intro hxml
    simp [raise_for_status, hrc, hcs, hne1, hne0, hxml]
  · intro m cl' hxml hm hfind
    simp [raise_for_status, hrc, hcs, hne1, hne0, hxml, hfind, hm]
  · intro e cl' hxml hfind
    simp [raise_for_status, hrc, hcs, hne1, hne0, hxml, hfind]

/-- Witness for C2: exit code 1 with no report path raises
`CommandFailedError`. -/
theorem positive_exit_error_selection_c2_witness :
    (raise_for_status procFailed baseClient chanOne).1 =
      .error (RunError.commandFailed "true" 1 "h0" none) :=
  (positive_exit_error_selection_c2 procFailed baseClient chanOne 1
    rfl rfl (by norm_num)).1 rfl

/-- C4: with `check_status=False`, `wait()` never raises: it returns the
resolved status (`None` standing for the `-1` sentinel) for every exit
outcome, and the handle still records the resolved raw code. -/
theorem wait_returns_without_raising_c4
    (p : RemoteProcess) (cl : SSHClient) (ch : Channel)
    (h : p.check_status = false) :
    (rp_wait p cl ch).1 =
      .ok (if ch.rawStatus = -1 then none else some ch.rawStatus) ∧
    (rp_wait p cl ch).2.1.returncode = some ch.rawStatus := by
  constructor <;> simp [rp_wait, raise_for_status, get_exitstatus, recv_exit_status, h]

/-- Witness for C4: a lost connection (`-1` sentinel) with
`check_status=False` returns `None` rather than raising. -/
theorem wait_returns_without_raising_c4_witness :
    (rp_wait procUnchecked baseClient chanLost).1 = .ok none ∧
    (rp_wait procUnchecked baseClient chanLost).2.1.returncode = some (-1) := by
  have h := wait_returns_without_raising_c4 procUnchecked baseClient chanLost rfl
  simpa using h

/-- C5: under `wait=True`, passing the `PIPE` sentinel for stdin or an
output stream makes stream setup raise the deadlock-avoidance
`RuntimeError` immediately; under `wait=False`, `PIPE` is accepted and the
caller keeps the stream (stdin stays as the `KludgeFile`-wrapped channel
file, stdout/stderr stay as the raw channel files), with no pump spawned. -/
theorem pipe_deadlock_guard_c5 (p : RemoteProcess) (which : OutName) (q : Bool) :
    (p.wait_flag = true →
      setup_stdin p .pipeS = .error (.runtimeError (deadlock_warning "stdin")) ∧
      setup_output_stream p .pipeO which q =
        .error (.runtimeError (deadlock_warning which.str))) ∧
    (p.wait_flag = false →
      setup_stdin p .pipeS = .ok { p with stdin := StdinField.kludgeWrapped } ∧
      setup_output_stream p .pipeO which q = .ok p) := by
  constructor <;> intro h <;>
    exact ⟨by simp [setup_stdin, h], by simp [setup_output_stream, h]⟩

/-- Witness for C5: both modes at concrete handles. -/
theorem pipe_deadlock_guard_c5_witness :
    setup_stdin baseProc .pipeS =
      .error (.runtimeError (deadlock_warning "stdin")) ∧
    setup_output_stream procNoWait .pipeO .stdout false = .ok procNoWait := by
  exact ⟨((pipe_deadlock_guard_c5 baseProc .stdout false).1 rfl).1,
    ((pipe_deadlock_guard_c5 procNoWait .stdout false).2 rfl).2⟩

/-- C10: leaving stdin as `None` spawns a pump that writes nothing and
closes the `KludgeFile`-wrapped remote stdin — performing both the stream
close and the write-direction shutdown — so the remote command sees EOF
with zero bytes written, and the handle's stdin attribute ends up `None`. -/
theorem default_stdin_pump_closes_c10 (p : RemoteProcess) :
    setup_stdin p .pynoneS =
      .ok { p with stdin := StdinField.noneF,
                   greenlets := p.greenlets ++ [PumpDesc.stdinPump none] } ∧
    copy_and_close none { written := "", closed := false, shutdown_write := false } =
      { written := "", closed := true, shutdown_write := true } :=
  ⟨rfl, rfl⟩

/-- Counterexample to C8: a document with no failed testcase but a
non-integer `failures` counter makes `get_error` raise (`int()` fails)
instead of returning `(None, None)`. -/
theorem zero_counters_c8_counterexample :
    failedTestcases docBadCounter = [] ∧
    ¬ (get_error docBadCounter = .ok (none, none)) := by decide

/-- C8 amended: a report whose `failures` and `errors` counters are both
zero yields `(None, None)` regardless of contents; and `(None, None)` is
also returned when no testcase has a failure or error child, provided the
counter attributes parse as integers (the `errors` one only matters when
`failures` parsed to zero) — a malformed counter raises instead. -/
theorem zero_counters_yield_none_c8 (root : XElem) (f e : Int)
    (hf : getAttrInt root "failures" = .ok f)
    (he : f = 0 → getAttrInt root "errors" = .ok e) :
    ((f = 0 ∧ e = 0) → get_error root = .ok (none, none)) ∧
    (failedTestcases root = [] → get_error root = .ok (none, none)) := by
  constructor
  · rintro ⟨hf0, he0⟩
    subst hf0; subst he0
    have he' := he rfl
    simp [get_error, hf, he']
  · intro hftc
    by_cases hf0 : f = 0
    · have he' := he hf0
      subst hf0
      by_cases he0 : e = 0
      · subst he0
        simp [get_error, hf, he']
      · simp [get_error, hf, he', he0, get_error_main, hftc]
    · simp [get_error, hf, hf0, get_error_main, hftc]

/-- Witness for C8 at a report with zero counters but a failure child in the
body. -/
theorem zero_counters_yield_none_c8_witness :
    get_error docZeroCounters = .ok (none, none) :=
  (zero_counters_yield_none_c8 docZeroCounters 0 0 (by decide)
    (fun _ => by decide)).1 ⟨rfl, rfl⟩

/-- Behaviour of the final blocking-wait loop: all handles are waited in
order when every wait succeeds; otherwise the waits stop right after the
first handle whose `wait()` raises, and that error is the loop's outcome. -/
theorem waitAll_spec (ps : List ProcH) :
    ((∀ pr ∈ ps, exceptOk pr.waitStep.1 = true) →
      waitAll ps = (.ok (), ps.map (fun q => q.waitStep.2), [])) ∧
    (∀ pr' rest', ps.dropWhile (fun q => exceptOk q.waitStep.1) = pr' :: rest' →
      ∃ e, pr'.waitStep.1 = .error e ∧
        waitAll ps = (.error e,
          (ps.takeWhile (fun q => exceptOk q.waitStep.1)).map (fun q => q.waitStep.2)
            ++ [pr'.waitStep.2], rest')) := by
  induction ps with
  | nil =>
      refine ⟨fun _ => rfl, fun pr' rest' h => ?_⟩
      simp [List.dropWhile] at h
  | cons pr rest ih =>
      constructor
      · intro hall
        have hok := hall pr (List.mem_cons_self pr rest)
        rcases hw : pr.waitStep with ⟨res, pr2⟩
        cases res with
        | error e => rw [hw] at hok; simp [exceptOk] at hok
        | ok v =>
            have hrest := ih.1 (fun q hq => hall q (List.mem_cons_of_mem pr hq))
            simp [waitAll, hw, hrest]
      · intro pr' rest' hdrop
        rcases hw : pr.waitStep with ⟨res, pr2⟩
        cases res with
        | error e =>
            have hnok : exceptOk pr.waitStep.1 = false := by rw [hw]; rfl
            rw [List.dropWhile_cons, hnok] at hdrop
            simp at hdrop
            obtain ⟨h1, h2⟩ := hdrop
            subst h1; subst h2
            refine ⟨e, by rw [hw], ?_⟩
            rw [List.takeWhile_cons, hnok]
            simp [waitAll, hw]
        | ok v =>
            have hok : exceptOk pr.waitStep.1 = true := by rw [hw]; rfl
            rw [List.dropWhile_cons, hok] at hdrop
            obtain ⟨e, he, hrec⟩ := ih.2 pr' rest' hdrop
            refine ⟨e, he, ?_⟩
            rw [List.takeWhile_cons, hok]
            simp [waitAll, hw, hrec]

/-- C7 amended: `batch_wait` runs its bounded polling phase, then blockingly
waits on the handles in original order; when every wait succeeds all handles
are waited, while the first raised failure propagates immediately and the
handles after it are left unwaited (the loop aborts, it does not keep
waiting on the rest). -/
theorem batch_wait_first_failure_aborts_c7 (procs : List ProcH) (timeout : Option Nat) :
    (batch_wait procs timeout = waitAll (pollPart procs timeout)) ∧
    ((∀ pr ∈ pollPart procs timeout, exceptOk pr.waitStep.1 = true) →
      batch_wait procs timeout =
        (.ok (), (pollPart procs timeout).map (fun q => q.waitStep.2), [])) ∧
    (∀ pr' rest',
      (pollPart procs timeout).dropWhile (fun q => exceptOk q.waitStep.1) = pr' :: rest' →
      ∃ e, pr'.waitStep.1 = .error e ∧
        batch_wait procs timeout =
          (.error e,
           ((pollPart procs timeout).takeWhile (fun q => exceptOk q.waitStep.1)).map
             (fun q => q.waitStep.2) ++ [pr'.waitStep.2], rest')) := by
  refine ⟨rfl, ?_, ?_⟩
  · intro hall
    exact (waitAll_spec (pollPart procs timeout)).1 hall
  · intro pr' rest' hdrop
    exact (waitAll_spec (pollPart procs timeout)).2 pr' rest' hdrop

/-- Counterexample to C7: with two handles and no timeout, the first
handle's failing `wait()` propagates and the second handle is never waited
on — it is left untouched (its channel exit status is never read), contrary
to "the remaining handles are still waited on rather than skipped". -/
theorem batch_wait_skips_rest_c7_counterexample :
    (batch_wait [procFailingWait, procOkWait] none).1 =
      .error (RunError.commandFailed "false" 1 "h0" none) ∧
    (batch_wait [procFailingWait, procOkWait] none).2.2 = [procOkWait] ∧
    procOkWait.chan.recvCount = 0 := by decide

/-- Witness for C7 at a singleton batch whose wait succeeds. -/
theorem batch_wait_first_failure_aborts_c7_witness :
    batch_wait [procOkWait] none =
      (.ok (), [procOkWait.waitStep.2], []) := by
  have h := (batch_wait_first_failure_aborts_c7 [procOkWait] none).2.1 (by decide)
  simpa using h

/-- The scan loop visits every file: the collected messages, accumulated
records and `cat` log are those of all listed files, in order, whenever no
file makes the scan raise. -/
theorem scanFilesLoop_ok (files : List String) : ∀ (sc : Scanner) (acc : List String),
    (∀ f ∈ files, exceptOk (fileScan sc.client.catMap f) = true) →
    scanFilesLoop sc files acc =
      (.ok (acc ++ files.filterMap (fun f => fsMsg (fileScan sc.client.catMap f))),
       { yaml_data := sc.yaml_data ++
           files.filterMap (fun f => fsRec (fileScan sc.client.catMap f)),
         client := { sc.client with
           catLog := sc.client.catLog ++ files.filter (fun f => decide ¬ (f = "")) } }) := by
  induction files with
  | nil =>
      intro sc acc h
      simp [scanFilesLoop, write_logs]
  | cons f rest ih =>
      intro sc acc h
      have hf := h f (List.mem_cons_self f rest)
      have hrest := fun (sc' : Scanner) (hmap : sc'.client.catMap = sc.client.catMap)
          (acc' : List String) => by
        rw [← hmap] at h
        exact ih sc' acc' (fun g hg => h g (List.mem_cons_of_mem _ hg))
      by_cases hfe : f = ""
      · subst hfe
        have hloop := hrest sc rfl acc
        simp [scanFilesLoop, scan_file, fileScan, fsMsg, fsRec, optTruthy, hloop]
      · rcases hcat : catLookup sc.client.catMap f with _ | _ | x
        · simp [fileScan, hfe, hcat, exceptOk] at hf
        · simp [fileScan, hfe, hcat, exceptOk] at hf
        · rcases hge : get_error x with e | ⟨etxt, edata⟩
          · simp [fileScan, hfe, hcat, hge, exceptOk] at hf
          · have hfs : fileScan sc.client.catMap f =
                .ok (etxt, edata.map (fun d => (f, d))) := by
              simp [fileScan, hfe, hcat, hge]
            rcases edata with _ | d
            · have hloop := hrest
                { sc with client := { sc.client with catLog := sc.client.catLog ++ [f] } }
                rfl (if optTruthy etxt then acc ++ [etxt.getD ""] else acc)
              rcases etxt with _ | m
              · simp only [scanFilesLoop, scan_file, if_neg hfe, execCat, hcat, hge]
                rw [hloop]
                simp [fsMsg, fsRec, hfs, optTruthy, hfe]
              · by_cases hm : m = ""
                · subst hm
                  simp only [scanFilesLoop, scan_file, if_neg hfe, execCat, hcat, hge]
                  rw [hloop]
                  simp [fsMsg, fsRec, hfs, optTruthy, hfe]
                · simp only [scanFilesLoop, scan_file, if_neg hfe, execCat, hcat, hge]
                  rw [hloop]
                  simp [fsMsg, fsRec, hfs, optTruthy, hfe, hm]
            · have hloop := hrest
                { sc with
                  yaml_data := sc.yaml_data ++ [(f, d)],
                  client := { sc.client with catLog := sc.client.catLog ++ [f] } }
                rfl (if optTruthy etxt then acc ++ [etxt.getD ""] else acc)
              rcases etxt with _ | m
              · simp only [scanFilesLoop, scan_file, if_neg hfe, execCat, hcat, hge]
                rw [hloop]
                simp [fsMsg, fsRec, hfs, optTruthy, hfe]
              · by_cases hm : m = ""
                · subst hm
                  simp only [scanFilesLoop, scan_file, if_neg hfe, execCat, hcat, hge]
                  rw [hloop]
                  simp [fsMsg, fsRec, hfs, optTruthy, hfe]
                · simp only [scanFilesLoop, scan_file, if_neg hfe, execCat, hcat, hge]
                  rw [hloop]
                  simp [fsMsg, fsRec, hfs, optTruthy, hfe, hm]

/-- C6 amended: the directory scan visits every listed file — it does not
stop once a failure message has been found — accumulating the structured
records of every scanned file, and `get_error_msg` returns the first
collected non-empty failure message. -/
theorem dir_scan_scans_all_c6 (sc : Scanner) (dirPath : String)
    (hdir : ¬ (dirPath = "")) (hslash : pyEndsWith dirPath "/" = true)
    (hok : ∀ f ∈ pySplitNl (lsLookup sc.client.lsMap ("ls -d " ++ dirPath ++ "*." ++ "xml")),
      exceptOk (fileScan sc.client.catMap f) = true) :
    get_error_msg sc dirPath =
      (((pySplitNl (lsLookup sc.client.lsMap ("ls -d " ++ dirPath ++ "*." ++ "xml"))).filterMap
          (fun f => fsMsg (fileScan sc.client.catMap f))).head?,
       { yaml_data := sc.yaml_data ++
           (pySplitNl (lsLookup sc.client.lsMap ("ls -d " ++ dirPath ++ "*." ++ "xml"))).filterMap
             (fun f => fsRec (fileScan sc.client.catMap f)),
         client := { sc.client with
           catLog := sc.client.catLog ++
             (pySplitNl (lsLookup sc.client.lsMap ("ls -d " ++ dirPath ++ "*." ++ "xml"))).filter
               (fun f => decide ¬ (f = "")) } }) := by
  have hloop := scanFilesLoop_ok
    (pySplitNl (lsLookup sc.client.lsMap ("ls -d " ++ dirPath ++ "*." ++ "xml"))) sc [] hok
  rw [get_error_msg, if_neg hdir, if_pos hslash]
  simp only [scan_all_files_in_dir, execLs]
  have hsc : ({ yaml_data := sc.yaml_data, client := sc.client } : Scanner) = sc := rfl
  rw [hsc, hloop]
  simp only [List.nil_append]
  cases hfm : (pySplitNl (lsLookup sc.client.lsMap ("ls -d " ++ dirPath ++ "*." ++ "xml"))).filterMap
      (fun f => fsMsg (fileScan sc.client.catMap f)) with
  | nil => simp
  | cons m ms => simp

/-- Counterexample to C6: the first listed report already yields a failure
message, yet all three files are still `cat`-ted (no short-circuit) and the
second file's message is collected as well. -/
theorem dir_scan_no_short_circuit_c6_counterexample :
    fsMsg (fileScan dirClient.catMap "/reports/a.xml") =
      some "FAILURE: Test `t1` of `s1`. Reason: boo." ∧
    (get_error_msg dirScanner "/reports/").1 =
      some "FAILURE: Test `t1` of `s1`. Reason: boo." ∧
    (get_error_msg dirScanner "/reports/").2.client.catLog =
      ["/reports/a.xml", "/reports/b.xml", "/reports/c.xml"] ∧
    (scan_all_files_in_dir dirScanner "/reports/" "xml").1 =
      .ok ["FAILURE: Test `t1` of `s1`. Reason: boo.",
           "FAILURE: Test `t2` of `s2`. Reason: cras."] := by decide

/-- Witness for C6 at the three-report directory. -/
theorem dir_scan_scans_all_c6_witness :
    (get_error_msg dirScanner "/reports/").1 =
      some "FAILURE: Test `t1` of `s1`. Reason: boo." ∧
    (get_error_msg dirScanner "/reports/").2.yaml_data.length = 2 := by
  have h := dir_scan_scans_all_c6 dirScanner "/reports/" (by decide) (by decide) (by decide)
  rw [h]
  constructor
  · decide
  · decide

theorem clientCfgEq_trans {a b c : SSHClient} (h1 : clientCfgEq a b)
    (h2 : clientCfgEq b c) : clientCfgEq a c :=
  ⟨h1.1.trans h2.1, h1.2.1.trans h2.2.1, h1.2.2.trans h2.2.2⟩

/-- `parse_xml` only appends to the client's instrumentation log. -/
theorem parse_xml_cfg (f : String) (cl : SSHClient) :
    clientCfgEq cl (parse_xml f cl).2 := by
  unfold parse_xml
  split
  · exact ⟨rfl, rfl, rfl⟩
  · simp only [execCat]
    split <;> exact ⟨rfl, rfl, rfl⟩

/-- The value `parse_xml` computes depends only on the `cat` table. -/
theorem parse_xml_fst_congr (f : String) (cl cl' : SSHClient)
    (h : cl.catMap = cl'.catMap) :
    (parse_xml f cl).1 = (parse_xml f cl').1 := by
  unfold parse_xml
  by_cases hf : f = ""
  · simp [hf]
  · simp only [if_neg hf, execCat, h]
    cases catLookup cl'.catMap f <;> rfl

/-- The directory loop of `find_unittest_error` only appends to the log. -/
theorem findLoop_cfg : ∀ (fs : List String) (cl : SSHClient),
    clientCfgEq cl (findLoop fs cl).2
  | [], _ => ⟨rfl, rfl, rfl⟩
  | f :: rest, cl => by
      have hcfg := parse_xml_cfg f cl
      unfold findLoop
      rcases hp : parse_xml f cl with ⟨r, c2⟩
      rw [hp] at hcfg
      cases r with
      | error e => exact hcfg
      | ok e =>
          by_cases ht : optTruthy e = true
          · simp only [ht, if_true]
            exact hcfg
          · simp only [Bool.not_eq_true] at ht
            simp only [ht, Bool.false_eq_true, if_false]
            exact clientCfgEq_trans hcfg (findLoop_cfg rest c2)

/-- The value the directory loop computes depends only on the `cat` table. -/
theorem findLoop_fst_congr : ∀ (fs : List String) (cl cl' : SSHClient),
    cl.catMap = cl'.catMap → (findLoop fs cl).1 = (findLoop fs cl').1
  | [], _, _, _ => rfl
  | f :: rest, cl, cl', h => by
      have h1 := parse_xml_fst_congr f cl cl' h
      have hcfg := parse_xml_cfg f cl
      have hcfg' := parse_xml_cfg f cl'
      unfold findLoop
      rcases hp : parse_xml f cl with ⟨r, c2⟩
      rcases hp' : parse_xml f cl' with ⟨r', c2'⟩
      rw [hp, hp'] at h1
      simp only at h1
      subst h1
      rw [hp] at hcfg
      rw [hp'] at hcfg'
      have hmap : c2.catMap = c2'.catMap :=
        (hcfg.2.1.symm.trans h).trans hcfg'.2.1
      cases r with
      | error e => rfl
      | ok e =>
          by_cases ht : optTruthy e = true
          · simp only [ht, if_true]
          · simp only [Bool.not_eq_true] at ht
            simp only [ht, Bool.false_eq_true, if_false]
            exact findLoop_fst_congr rest c2 c2' hmap

/-- `find_unittest_error` only appends to the client's log. -/
theorem find_unittest_error_cfg (path : String) (cl : SSHClient) :
    clientCfgEq cl (find_unittest_error path cl).2 := by
  unfold find_unittest_error
  by_cases h0 : path = ""
  · simp only [h0, if_pos]
    exact ⟨rfl, rfl, rfl⟩
  · simp only [if_neg h0]
    by_cases hsl : pyEndsWith path "/" = true
    · simp only [hsl, if_true, execLs]
      exact findLoop_cfg _ cl
    · simp only [Bool.not_eq_true] at hsl
      simp only [hsl, Bool.false_eq_true, if_false]
      by_cases hext : splitextExt path = ".xml"
      · simp only [if_pos hext]
        exact parse_xml_cfg path cl
      · simp only [if_neg hext]
        exact ⟨rfl, rfl, rfl⟩

/-- The value `find_unittest_error` computes depends only on the remote
content tables. -/
theorem find_unittest_error_fst_congr (path : String) (cl cl' : SSHClient)
    (hcat : cl.catMap = cl'.catMap) (hls : cl.lsMap = cl'.lsMap) :
    (find_unittest_error path cl).1 = (find_unittest_error path cl').1 := by
  unfold find_unittest_error
  by_cases h0 : path = ""
  · simp [h0]
  · simp only [if_neg h0]
    by_cases hsl : pyEndsWith path "/" = true
    · simp only [hsl, if_true, execLs, hls]
      exact findLoop_fst_congr _ cl cl' hcat
    · simp only [Bool.not_eq_true] at hsl
      simp only [hsl, Bool.false_eq_true, if_false]
      by_cases hext : splitextExt path = ".xml"
      · simp only [if_pos hext]
        exact parse_xml_fst_congr path cl cl' hcat
      · simp only [if_neg hext]

/-- Once the returncode is resolved, `_raise_for_status` leaves the handle
and the channel untouched and only appends to the client's log. -/
theorem raise_for_status_resolved_state (p : RemoteProcess) (cl : SSHClient)
    (ch : Channel) (r : Int) (hrc : p.returncode = some r) :
    (raise_for_status p cl ch).2.1 = p ∧ (raise_for_status p cl ch).2.2.2 = ch ∧
    clientCfgEq cl (raise_for_status p cl ch).2.2.1 := by
  have hcfg := find_unittest_error_cfg p.unittest_xml cl
  unfold raise_for_status
  simp only [hrc]
  rcases hfind : find_unittest_error p.unittest_xml cl with ⟨fr, fcl⟩
  rw [hfind] at hcfg
  refine ⟨?_, ?_, ?_⟩
  · cases fr <;> repeat' split
    all_goals rfl
  · cases fr <;> repeat' split
    all_goals rfl
  · cases fr <;> repeat' split
    all_goals first
      | exact ⟨rfl, rfl, rfl⟩
      | simp_all [clientCfgEq]

/-- Once the returncode is resolved, the outcome of `_raise_for_status`
depends only on the handle and the remote content tables, not on the
channel or the instrumentation log. -/
theorem raise_for_status_fst_congr (p : RemoteProcess) (cl cl' : SSHClient)
    (ch ch' : Channel) (r : Int) (hrc : p.returncode = some r)
    (h : clientCfgEq cl cl') :
    (raise_for_status p cl ch).1 = (raise_for_status p cl' ch').1 := by
  obtain ⟨ht, hc, hl⟩ := h
  have hfind1 := find_unittest_error_fst_congr p.unittest_xml cl cl' hc hl
  unfold raise_for_status
  simp only [hrc, ht]
  rcases hp : find_unittest_error p.unittest_xml cl with ⟨fr, fcl⟩
  rcases hp' : find_unittest_error p.unittest_xml cl' with ⟨fr', fcl'⟩
  rw [hp, hp'] at hfind1
  simp at hfind1
  subst hfind1
  cases fr <;> repeat' split
  all_goals first
    | rfl
    | simp_all

/-- Counterexample to C3: a completed handle re-reads the channel exit
status on every `poll()` — two calls make two `recv_exit_status` reads, not
one — even though both calls return the same resolved status. -/
theorem poll_rereads_exit_status_c3_counterexample :
    (poll baseProc baseClient chanZero).1 = .ok (some 0) ∧
    (poll baseProc baseClient chanZero).2.2.2.recvCount = 1 ∧
    (poll (poll baseProc baseClient chanZero).2.1 (poll baseProc baseClient chanZero).2.2.1
        (poll baseProc baseClient chanZero).2.2.2).1 = .ok (some 0) ∧
    (poll (poll baseProc baseClient chanZero).2.1 (poll baseProc baseClient chanZero).2.2.1
        (poll baseProc baseClient chanZero).2.2.2).2.2.2.recvCount = 2 := by
  decide

/-- C3 amended: once the channel reports the exit status ready, repeated
`poll()` calls return the same result every time (the channel re-reports
the same raw status), but the exit-status retrieval from the channel is
performed on every call — once per `poll` — rather than exactly once with
the value cached. -/
theorem poll_idempotent_but_rereads_c3 (p : RemoteProcess) (cl : SSHClient)
    (ch : Channel) (hready : ch.statusReady = true) :
    (poll (poll p cl ch).2.1 (poll p cl ch).2.2.1 (poll p cl ch).2.2.2).1 =
      (poll p cl ch).1 ∧
    (poll p cl ch).2.2.2.recvCount = ch.recvCount + 1 ∧
    (poll (poll p cl ch).2.1 (poll p cl ch).2.2.1 (poll p cl ch).2.2.2).2.2.2.recvCount =
      ch.recvCount + 2 := by
  have hfin1 : finished p ch =
      (true, { p with exitstatus := some ch.rawStatus, returncode := some ch.rawStatus },
       { ch with recvCount := ch.recvCount + 1 }) := by
    simp [finished, hready, get_exitstatus, recv_exit_status]
  rcases hr : raise_for_status
      { p with exitstatus := some ch.rawStatus, returncode := some ch.rawStatus } cl
      { ch with recvCount := ch.recvCount + 1 } with ⟨res, p2, cl2, ch2⟩
  have hstate := raise_for_status_resolved_state
      { p with exitstatus := some ch.rawStatus, returncode := some ch.rawStatus } cl
      { ch with recvCount := ch.recvCount + 1 } ch.rawStatus rfl
  rw [hr] at hstate
  have hp2 : p2 = { p with exitstatus := some ch.rawStatus, returncode := some ch.rawStatus } :=
    hstate.1
  have hch2 : ch2 = { ch with recvCount := ch.recvCount + 1 } := hstate.2.1
  have hcfg : clientCfgEq cl cl2 := hstate.2.2
  subst hp2
  subst hch2
  have hfin2 : finished
      { p with exitstatus := some ch.rawStatus, returncode := some ch.rawStatus }
      { ch with recvCount := ch.recvCount + 1 } =
      (true, { p with exitstatus := some ch.rawStatus, returncode := some ch.rawStatus },
       { ch with recvCount := ch.recvCount + 1 + 1 }) := by
    simp [finished, hready, get_exitstatus, recv_exit_status]
  rcases hr2 : raise_for_status
      { p with exitstatus := some ch.rawStatus, returncode := some ch.rawStatus } cl2
      { ch with recvCount := ch.recvCount + 1 + 1 } with ⟨res2, p3, cl3, ch3⟩
  have hcong := raise_for_status_fst_congr
      { p with exitstatus := some ch.rawStatus, returncode := some ch.rawStatus } cl cl2
      { ch with recvCount := ch.recvCount + 1 }
      { ch with recvCount := ch.recvCount + 1 + 1 } ch.rawStatus rfl hcfg
  rw [hr, hr2] at hcong
  have hstate2 := raise_for_status_resolved_state
      { p with exitstatus := some ch.rawStatus, returncode := some ch.rawStatus } cl2
      { ch with recvCount := ch.recvCount + 1 + 1 } ch.rawStatus rfl
  rw [hr2] at hstate2
  have hp3 : p3 = { p with exitstatus := some ch.rawStatus, returncode := some ch.rawStatus } :=
    hstate2.1
  have hch3 : ch3 = { ch with recvCount := ch.recvCount + 1 + 1 } := hstate2.2.1
  subst hp3
  subst hch3
  cases res with
  | error e =>
      have hres : (Except.error e : Except RunError Unit) = res2 := hcong
      cases hres
      have hpoll1 : poll p cl ch =
          (.error e, { p with exitstatus := some ch.rawStatus, returncode := some ch.rawStatus },
           cl2, { ch with recvCount := ch.recvCount + 1 }) := by
        simp only [poll, hfin1, hr]
      have hpoll2 : poll
          { p with exitstatus := some ch.rawStatus, returncode := some ch.rawStatus } cl2
          { ch with recvCount := ch.recvCount + 1 } =
          (.error e, { p with exitstatus := some ch.rawStatus, returncode := some ch.rawStatus },
           cl3, { ch with recvCount := ch.recvCount + 1 + 1 }) := by
        simp only [poll, hfin2, hr2]
      refine ⟨?_, ?_, ?_⟩ <;> simp [hpoll1, hpoll2]
  | ok u =>
      have hres : (Except.ok u : Except RunError Unit) = res2 := hcong
      cases hres
      have hpoll1 : poll p cl ch =
          (.ok (some ch.rawStatus),
           { p with exitstatus := some ch.rawStatus, returncode := some ch.rawStatus },
           cl2, { ch with recvCount := ch.recvCount + 1 }) := by
        simp only [poll, hfin1, hr]
      have hpoll2 : poll
          { p with exitstatus := some ch.rawStatus, returncode := some ch.rawStatus } cl2
          { ch with recvCount := ch.recvCount + 1 } =
          (.ok (some ch.rawStatus),
           { p with exitstatus := some ch.rawStatus, returncode := some ch.rawStatus },
           cl3, { ch with recvCount := ch.recvCount + 1 + 1 }) := by
        simp only [poll, hfin2, hr2]
      refine ⟨?_, ?_, ?_⟩ <;> simp [hpoll1, hpoll2]

/-- Witness for C3 on a concrete completed handle. -/
theorem poll_idempotent_but_rereads_c3_witness :
    (poll (poll baseProc baseClient chanZero).2.1 (poll baseProc baseClient chanZero).2.2.1
        (poll baseProc baseClient chanZero).2.2.2).1 =
      (poll baseProc baseClient chanZero).1 ∧
    (poll (poll baseProc baseClient chanZero).2.1 (poll baseProc baseClient chanZero).2.2.1
        (poll baseProc baseClient chanZero).2.2.2).2.2.2.recvCount = 2 := by
  have h := poll_idempotent_but_rereads_c3 baseProc baseClient chanZero rfl
  exact ⟨h.1, h.2.2⟩

end Teuthology
